import Mathlib

/-!
Shallow embedding of the resolution pipeline of the nc_abc_spirits_inventory
repository: the concurrent detail-page scraper (`scrape_item_details.py`),
the image-search backfill (`replace_missing_urls.py`), and the x-raw-image
replacement loop with its BigQuery update step (`replace_x_image_urls.py`).

String operations are modelled over `List Char` with structural (fuel-based)
recursion so that every definition evaluates by `rfl`/`decide`, with the same
semantics as the Python builtins they embed (`str.split`, `str.replace`,
`str.strip`, slicing, substring test).
-/

/-! ## Python string-builtin semantics -/

/-- Boolean test that `p` is a prefix of `l` (Python startswith on char lists). -/
def isPrefixList : List Char → List Char → Bool
  | [], _ => true
  | _ :: _, [] => false
  | a :: as, b :: bs => a = b && isPrefixList as bs

/-- Core of Python `str.split(sep)` for a non-empty separator, over char lists.
The first argument is fuel; `l.length + 1` fuel always suffices because every
step consumes at least one character. `cur` is the current chunk, reversed. -/
def splitChars (sep : List Char) : Nat → List Char → List Char → List (List Char)
  | _, [], cur => [cur.reverse]
  | 0, l, cur => [cur.reverse ++ l]
  | fuel + 1, c :: rest, cur =>
    if isPrefixList sep (c :: rest) then
      cur.reverse :: splitChars sep fuel ((c :: rest).drop sep.length) []
    else
      splitChars sep fuel rest (c :: cur)

/-- Python `s.split(sep)`: splits on every non-overlapping occurrence of `sep`,
keeping empty chunks; returns `[s]` when `sep` does not occur. -/
def pySplit (s sep : String) : List String :=
  if sep.data = [] then [s]
  else (splitChars sep.data (s.data.length + 1) s.data []).map String.mk

/-- Python `sub in s`: substring containment, via the chunk count of a split. -/
def pyContains (s sub : String) : Bool :=
  (pySplit s sub).length != 1

/-- Concatenate chunks with a separator between them (used to define replace). -/
def joinWith (sep : List Char) : List (List Char) → List Char
  | [] => []
  | [x] => x
  | x :: y :: xs => x ++ sep ++ joinWith sep (y :: xs)

/-- Python `s.replace(old, new)` for non-empty `old`: every non-overlapping
occurrence of `old` becomes `new`; identity when `old` is empty or absent. -/
def pyReplace (s old new : String) : String :=
  if old.data = [] then s
  else String.mk (joinWith new.data ((splitChars old.data (s.data.length + 1) s.data []).map id))

/-- Whitespace characters removed by Python `str.strip()`. -/
def isPySpace (c : Char) : Bool :=
  c = ' ' || c = '\t' || c = '\n' || c = '\r' || c = '\x0b' || c = '\x0c'

/-- Python `s.strip()`: remove leading and trailing whitespace. -/
def pyStrip (s : String) : String :=
  String.mk (((s.data.dropWhile isPySpace).reverse.dropWhile isPySpace).reverse)

/-- Python slice `s[:n]`. -/
def pyTake (s : String) (n : Nat) : String := String.mk (s.data.take n)

/-- Python slice `s[n:]`. -/
def pyDrop (s : String) (n : Nat) : String := String.mk (s.data.drop n)

/-! ## Data model -/

/-- The fixed record built by `scrape_item_details`: the
`item_details_column_names` dictionary of `scrape_item_details.py`, lines
32-45, with one field per column and every field defaulting to `""`. -/
structure ItemRecord where
  nc_code : String
  brand_name : String
  effective_date : String
  bottle_size : String
  proof : String
  bottles_per_case : String
  upc : String
  retail_price : String
  mxb_price : String
  case_cost_less_bailment : String
  distiller : String
  product_image_url : String
deriving DecidableEq

/-- The record with every field at its default (the dictionary as initialised). -/
def emptyRecord : ItemRecord :=
  { nc_code := "", brand_name := "", effective_date := "", bottle_size := ""
  , proof := "", bottles_per_case := "", upc := "", retail_price := ""
  , mxb_price := "", case_cost_less_bailment := "", distiller := ""
  , product_image_url := "" }

/-- One direct child of the container div, as the loop at
`scrape_item_details.py` lines 76-106 observes it: whether it contains an
`h3.mt-5.pt-3`, its class list, and its (un-stripped) text. -/
structure Elem where
  hasHeadingH3 : Bool
  classes : List String
  text : String
deriving DecidableEq

/-- A fetched detail page after parsing: the children of the first
`div.container[min-height:70vh]` when present, and the `img` `src` of the
`div.row[padding:15px]` block when present. -/
structure Document where
  container : Option (List Elem)
  img : Option String
deriving DecidableEq

/-- An HTTP response: status code and parsed body. -/
structure Response where
  status : Nat
  doc : Document
deriving DecidableEq

/-- Outcome of one scrape: a returned record, or process termination via
`sys.exit code` (the code's only non-return exits). -/
inductive ScrapeOutcome where
  | ok (r : ItemRecord)
  | exit (code : Nat)
deriving DecidableEq

/-! ## The label/value dictionary (`item_details_column_values`) -/

/-- The mutable Python dict, most-recent assignment first. -/
abbrev Dict := List (String × String)

/-- Python dict assignment `d[k] = v` (later lookups see the newest value). -/
def dictInsert (d : Dict) (k v : String) : Dict := (k, v) :: d

/-- Python `k in d`. -/
def dictMem (d : Dict) (k : String) : Bool := d.any (fun p => p.1 == k)

/-- Python `d[k]` for a key known to be present (defaults to `""` otherwise). -/
def dictLookup (d : Dict) (k : String) : String :=
  ((d.find? (fun p => p.1 == k)).map Prod.snd).getD ""

/-! ## Structural extractor (`scrape_item_details`, lines 47-167) -/

/-- The catalog-code reformatting of lines 122-123:
`nc_code[:2] + "-" + nc_code[2:]`. -/
def formatNcCode (s : String) : String := pyTake s 2 ++ "-" ++ pyDrop s 2

/-- One iteration of the child loop (lines 76-106). A heading child splits its
stripped text on `" Effective Date: "` and indexes parts 0 and 1 — when the
delimiter is absent the index `[1]` raises (modelled as `Except.error`),
which the enclosing handler turns into `sys.exit(1)`. A `row` child adds one
or two label/value pairs to the dict; anything else is skipped. -/
def processElem (acc : ItemRecord × Dict) (e : Elem) : Except Unit (ItemRecord × Dict) :=
  if e.hasHeadingH3 then
    match pySplit (pyStrip e.text) " Effective Date: " with
    | brand :: eff :: _ =>
      Except.ok ({ acc.1 with brand_name := brand, effective_date := eff }, acc.2)
    | _ => Except.error ()
  else if e.classes = ["row"] then
    let parts := (pySplit (pyStrip e.text) "\n").filter (fun t => t ≠ "")
    if parts.length = 4 then
      Except.ok (acc.1,
        dictInsert (dictInsert acc.2 (pyReplace (parts.getD 0 "") ":" "") (parts.getD 1 ""))
          (pyReplace (parts.getD 2 "") ":" "") (parts.getD 3 ""))
    else if parts.length = 2 then
      Except.ok (acc.1, dictInsert acc.2 (pyReplace (parts.getD 0 "") ":" "") (parts.getD 1 ""))
    else Except.ok acc
  else Except.ok acc

/-- The image block handling of lines 108-118: prefix the fixed base origin. -/
def applyImg (r : ItemRecord) (img : Option String) : ItemRecord :=
  match img with
  | some src => { r with product_image_url := "https://abc2.nc.gov" ++ src }
  | none => r

/-- The label→field mapping block of lines 120-160, applied in source order;
only the catalog code is transformed, every other field is a copy. -/
def applyDict (r : ItemRecord) (d : Dict) : ItemRecord :=
  let r1 := if dictMem d "NC Code" then
    { r with nc_code := formatNcCode (dictLookup d "NC Code") } else r
  let r2 := if dictMem d "Bottle Size" then
    { r1 with bottle_size := dictLookup d "Bottle Size" } else r1
  let r3 := if dictMem d "Proof" then
    { r2 with proof := dictLookup d "Proof" } else r2
  let r4 := if dictMem d "Bottles per Case" then
    { r3 with bottles_per_case := dictLookup d "Bottles per Case" } else r3
  let r5 := if dictMem d "UPC" then
    { r4 with upc := dictLookup d "UPC" } else r4
  let r6 := if dictMem d "Retail Price" then
    { r5 with retail_price := dictLookup d "Retail Price" } else r5
  let r7 := if dictMem d "Mixed Beverage Price" then
    { r6 with mxb_price := dictLookup d "Mixed Beverage Price" } else r6
  let r8 := if dictMem d "Case Cost Less Bailment" then
    { r7 with case_cost_less_bailment := dictLookup d "Case Cost Less Bailment" } else r7
  let r9 := if dictMem d "Distiller" then
    { r8 with distiller := dictLookup d "Distiller" } else r8
  r9

/-- `scrape_item_details` (lines 47-167). A non-200 status exits the process
with code 1 (line 54); a missing container returns the all-default record
(lines 65-67); an exception while processing children is caught by the broad
handler and also exits with code 1 (lines 164-167); otherwise the image block
and then the label mapping are applied to the record. -/
def scrape_item_details (resp : Response) : ScrapeOutcome :=
  if resp.status ≠ 200 then ScrapeOutcome.exit 1
  else
    match resp.doc.container with
    | none => ScrapeOutcome.ok emptyRecord
    | some elems =>
      match elems.foldlM processElem (emptyRecord, ([] : Dict)) with
      | Except.error _ => ScrapeOutcome.exit 1
      | Except.ok (r, d) => ScrapeOutcome.ok (applyDict (applyImg r resp.doc.img) d)

/-- `process_urls` (both scripts): every url is scraped; `asyncio.gather`
propagates the first `SystemExit`, so if any scrape exits the whole batch —
and with it the process — terminates with that code and no result list is
produced; otherwise the records come back in input order. -/
def process_urls (fetch : String → Response) : List String → Except Nat (List ItemRecord)
  | [] => Except.ok []
  | u :: rest =>
    match scrape_item_details (fetch u) with
    | ScrapeOutcome.exit c => Except.error c
    | ScrapeOutcome.ok r =>
      match process_urls fetch rest with
      | Except.error c => Except.error c
      | Except.ok rs => Except.ok (r :: rs)

/-! ## Image search (`replace_missing_urls.py`, lines 17-55) -/

/-- How one call to the Custom Search API can fail before the body is read:
HTTP failure statuses raised by `raise_for_status` (rate limiting) or
transport errors (unreachable host). -/
inductive SearchFailure where
  | rateLimited
  | unreachable
deriving DecidableEq

/-- `google_custom_image_search` (lines 18-55): on a transport/status failure
the exception is logged and re-raised; on a body response the code evaluates
`response_data.get("items", [])[0]["link"]`, so an empty `items` list raises
`IndexError`, which the handler also logs and re-raises; a non-empty list
returns `f"{nc_code}~{image_url}"` built from the first link. -/
def google_custom_image_search (nc_code query : String)
    (resp : Except SearchFailure (List String)) : Except Unit String :=
  match query, resp with
  | _, Except.error _ => Except.error ()
  | _, Except.ok items =>
    match items with
    | [] => Except.error ()
    | link :: _ => Except.ok (nc_code ++ "~" ++ link)

/-- The tenacity retry driver: attempt `k`, then up to `rem` further attempts;
the first success is returned, and the final attempt's error propagates. -/
def runRetry (f : Nat → Except Unit String) : Nat → Nat → Except Unit String
  | k, 0 => f k
  | k, rem + 1 =>
    match f k with
    | Except.ok v => Except.ok v
    | Except.error _ => runRetry f (k + 1) rem

/-- `@retry(stop=stop_after_attempt(bound), ...)` applied to an attempt
function: attempts are numbered from 1 and at most `bound` are made. -/
def run_with_retry (f : Nat → Except Unit String) (bound : Nat) : Except Unit String :=
  runRetry f 1 (bound - 1)

/-! ## Retry policy (`tenacity` configuration on both scripts) -/

/-- `tenacity.wait_exponential(multiplier, min, max)` consulted after failed
attempt number `attempt`: `multiplier * 2^attempt` clamped into `[mn, mx]`. -/
def wait_exponential (multiplier mn mx attempt : Nat) : Nat :=
  max mn (min (multiplier * 2 ^ attempt) mx)

/-- The policy decision after failed attempt number `attempt`:
`stop_after_attempt bound` gives up once `bound` attempts have been made,
otherwise the next attempt is scheduled after the exponential backoff. -/
def decide_retry (bound multiplier mn mx attempt : Nat) : Option Nat :=
  if bound ≤ attempt then none
  else some (wait_exponential multiplier mn mx attempt)

/-- The item-detail policy: `@retry(stop=stop_after_attempt(3),
wait=wait_exponential(multiplier=1, min=4, max=10))`. -/
def item_detail_policy (attempt : Nat) : Option Nat := decide_retry 3 1 4 10 attempt

/-- The image-search policy: `@retry(stop=stop_after_attempt(30),
wait=wait_exponential(multiplier=1, min=4, max=15))`. -/
def image_search_policy (attempt : Nat) : Option Nat := decide_retry 30 1 4 15 attempt

/-! ## The `x-raw-image` convergence loop (`replace_x_image_urls.py`, lines 314-399) -/

/-- The sentinel substring tested by the loop (line 375). -/
def xRawSentinel : String := "x-raw-image:"

/-- `any("x-raw-image:" in image_url for image_url in image_url_list)`. -/
def hasSentinel (urls : List String) : Bool :=
  urls.any (fun u => pyContains u xRawSentinel)

/-- One iteration of the `while not no_x_raw_image_urls` body (lines 358-395):
call `replace_x_raw_image_urls` once (pass 1); if any returned image url
contains the sentinel, call it once more (pass 2) and use that result
unconditionally; then run the updates and set the flag, ending the loop.
`fp n` is the (code, image_url) list produced by the n-th call. Returns the
number of passes made and the list handed to the update loop. -/
def convergence_passes (fp : Nat → List (String × String)) :
    Nat × List (String × String) :=
  let r1 := fp 1
  if hasSentinel (r1.map Prod.snd) then (2, fp 2) else (1, r1)

/-- Observable end of the `replace_x_image_urls` run. -/
inductive RunResult where
  | success (stored : List (String × String))
  | exitWith (code : Nat)
deriving DecidableEq

/-- The whole `while` statement with its `try/except`: an exception anywhere
in the body reaches `except Exception: print(...); exit()` — the bare
`exit()` terminates the process with status 0. A body that completes sets
`no_x_raw_image_urls = True`, so the loop always ends after its first
iteration with the final list stored. -/
def convergence_main (body : Except String (Nat → List (String × String))) : RunResult :=
  match body with
  | Except.error _ => RunResult.exitWith 0
  | Except.ok fp => RunResult.success (convergence_passes fp).2

/-- The `__main__` wrapper of `scrape_item_details.py` (lines 344-354): an
upstream failure (the BigQuery read or anything else raised out of `main`)
is caught and the process exits with code 1; otherwise the batch runs. -/
def scrape_main (fetch : String → Response) (upstream : Except String (List String)) :
    Except Nat (List ItemRecord) :=
  match upstream with
  | Except.error _ => Except.error 1
  | Except.ok urls => process_urls fetch urls

/-! ## The update-query loop (`replace_x_image_urls.py`, lines 379-391) -/

/-- The SQL template assigned to `update_query` before the loop. -/
def update_query_template : String :=
  "\n            UPDATE `agile-planet-462621-j7`.nc_abc.backfill_missing_image_urls\n                SET image_url = \x27\x7bimage_url\x7d\x27\n            WHERE nc_code = \x27\x7bnc_code\x7d\x27\n            "

/-- The query the code intends for one pair: both placeholders of the
template substituted. -/
def mkUpdateQuery (nc_code image_url : String) : String :=
  pyReplace (pyReplace update_query_template "\x7bimage_url\x7d" image_url)
    "\x7bnc_code\x7d" nc_code

/-- The loop as written: `update_query` is reassigned to the substituted text
on each iteration (`update_query = update_query.replace(...)...`), so the
template is only available to the first iteration. Returns the list of SQL
strings executed, in order. -/
def runUpdates (pairs : List (String × String)) : List String :=
  (pairs.foldl
    (fun acc p =>
      let q := pyReplace (pyReplace acc.2 "\x7bimage_url\x7d" p.2) "\x7bnc_code\x7d" p.1
      (acc.1 ++ [q], q))
    (([] : List String), update_query_template)).1

/-- Semantics of one executed `UPDATE ... SET image_url = url WHERE
nc_code = code` against a stored (code, image_url) table. -/
def applyUpdate (store : List (String × String)) (code url : String) :
    List (String × String) :=
  store.map (fun p => if p.1 = code then (p.1, url) else p)

/-! ## The fetch scheduler order model (`asyncio.gather`) -/

/-- `asyncio.gather` with an explicit completion schedule: tasks are indexed
by position, `order` lists the indices in completion order, each completion
stores its result at its own index, and the returned list reads the slots in
index order. -/
def gatherResults {α : Type} (f : String → α) (urls : List String) (order : List Nat) :
    List (Option α) :=
  (List.range urls.length).map
    (order.foldl (fun acc i => Function.update acc i (some (f (urls.getD i "")))) (fun _ => none))

/-! ## Helper lemmas -/

theorem except_bind_ok {α β ε : Type} (a : α) (f : α → Except ε β) :
    (Except.ok a >>= f) = f a := rfl

theorem except_bind_error {α β ε : Type} (e : ε) (f : α → Except ε β) :
    ((Except.error e : Except ε α) >>= f) = (Except.error e : Except ε β) := rfl

/-- The only exit code `scrape_item_details` ever uses is 1. -/
theorem scrape_exit_eq_one (resp : Response) (c : Nat)
    (h : scrape_item_details resp = ScrapeOutcome.exit c) : c = 1 := by
  unfold scrape_item_details at h
  split at h
  · injection h with h1
    exact h1.symm
  · split at h
    · cases h
    · split at h
      · cases h; rfl
      · cases h

theorem processElem_ok_of_not_heading (acc : ItemRecord × Dict) (e : Elem)
    (h : e.hasHeadingH3 = false) :
    ∃ acc2, processElem acc e = Except.ok acc2 := by
  unfold processElem
  rw [h]
  simp only [Bool.false_eq_true, if_false]
  repeat' split
  all_goals exact ⟨_, rfl⟩

theorem processElem_error_of_heading_nodelim (acc : ItemRecord × Dict) (e : Elem)
    (hhead : e.hasHeadingH3 = true)
    (hnodelim : pyContains (pyStrip e.text) " Effective Date: " = false) :
    processElem acc e = Except.error () := by
  have hlen : (pySplit (pyStrip e.text) " Effective Date: ").length = 1 := by
    simpa [pyContains] using hnodelim
  obtain ⟨a, ha⟩ := List.length_eq_one.mp hlen
  simp [processElem, hhead, ha]

theorem foldlM_error_of_bad (e : Elem) (rest : List Elem)
    (hhead : e.hasHeadingH3 = true)
    (hnodelim : pyContains (pyStrip e.text) " Effective Date: " = false)
    (pre : List Elem) (hpre : ∀ x ∈ pre, x.hasHeadingH3 = false) :
    ∀ acc, (pre ++ e :: rest).foldlM processElem acc = Except.error () := by
  induction pre with
  | nil =>
    intro acc
    simp only [List.nil_append, List.foldlM_cons,
      processElem_error_of_heading_nodelim acc e hhead hnodelim, except_bind_error]
  | cons x xs ih =>
    intro acc
    obtain ⟨acc2, hx⟩ := processElem_ok_of_not_heading acc x (hpre x (List.mem_cons_self x xs))
    simp only [List.cons_append, List.foldlM_cons, hx, except_bind_ok]
    exact ih (fun y hy => hpre y (List.mem_cons_of_mem x hy)) acc2

/-- Any batch containing a locator whose scrape exits makes the whole batch exit 1. -/
theorem process_urls_error_of_mem (fetch : String → Response) (urls : List String)
    (u : String) (hu : u ∈ urls)
    (hbad : scrape_item_details (fetch u) = ScrapeOutcome.exit 1) :
    process_urls fetch urls = Except.error 1 := by
  induction urls with
  | nil => cases hu
  | cons v rest ih =>
    unfold process_urls
    rcases hsc : scrape_item_details (fetch v) with r | c
    · rcases List.mem_cons.mp hu with hv | hrest
      · subst hv; rw [hbad] at hsc; cases hsc
      · rw [ih hrest]
    · have : c = 1 := scrape_exit_eq_one (fetch v) c hsc
      subst this; rfl

/-- The catalog-code field of the mapped record. -/
theorem applyDict_nc_code (r : ItemRecord) (d : Dict) :
    (applyDict r d).nc_code =
      if dictMem d "NC Code" then formatNcCode (dictLookup d "NC Code") else r.nc_code := by
  cases hmem : dictMem d "NC Code" <;>
    simp [applyDict, hmem, apply_ite ItemRecord.nc_code]

/-- Where each slot of the gather fold ends up. -/
theorem gather_fold_apply {α : Type} (f : String → α) (urls : List String)
    (order : List Nat) (init : Nat → Option α) (j : Nat) :
    (order.foldl (fun acc i => Function.update acc i (some (f (urls.getD i "")))) init) j
      = if j ∈ order then some (f (urls.getD j "")) else init j := by
  induction order generalizing init with
  | nil => simp
  | cons i rest ih =>
    simp only [List.foldl_cons]
    rw [ih]
    by_cases hjr : j ∈ rest
    · simp [hjr, List.mem_cons]
    · by_cases hji : j = i
      · subst hji
        simp [hjr, Function.update_same]
      · simp [hjr, hji, Function.update_noteq hji]

/-- With a completion schedule that is a permutation of the indices, gather
returns exactly the per-position results. -/
theorem gatherResults_eq {α : Type} (f : String → α) (urls : List String)
    (order : List Nat) (hperm : order.Perm (List.range urls.length)) :
    gatherResults f urls order = urls.map (fun u => some (f u)) := by
  have hmem : ∀ j, j ∈ order ↔ j < urls.length := by
    intro j; rw [hperm.mem_iff, List.mem_range]
  unfold gatherResults
  apply List.ext_getElem?
  intro i
  rw [List.getElem?_map, List.getElem?_map]
  by_cases hi : i < urls.length
  · rw [List.getElem?_range hi, List.getElem?_eq_getElem hi]
    simp only [Option.map_some']
    rw [gather_fold_apply]
    rw [if_pos ((hmem i).mpr hi)]
    rw [List.getD_eq_getElem urls "" hi]
  · rw [List.getElem?_eq_none (by simpa using hi), List.getElem?_eq_none (by simpa [List.length_range] using hi)]
    rfl

/-- Scrape of any non-200 response exits the process with code 1 (line 54). -/
theorem scrape_exit_of_bad_status (resp : Response) (h : resp.status ≠ 200) :
    scrape_item_details resp = ScrapeOutcome.exit 1 := by
  unfold scrape_item_details
  rw [if_pos h]

/-- General idempotence of the keyed UPDATE semantics. -/
theorem applyUpdate_idem (store : List (String × String)) (code url : String) :
    applyUpdate (applyUpdate store code url) code url = applyUpdate store code url := by
  unfold applyUpdate
  rw [List.map_map]
  apply List.map_congr_left
  intro p _
  by_cases h : p.1 = code <;> simp [h]

/-- All attempts failing makes the retry driver fail. -/
theorem runRetry_error (g : Nat → Except Unit String) (hg : ∀ k, g k = Except.error ()) :
    ∀ rem k, runRetry g k rem = Except.error () := by
  intro rem
  induction rem with
  | zero => exact fun k => hg k
  | succ rem ih => intro k; unfold runRetry; rw [hg k]; exact ih (k + 1)

/-! ## Claim C1 -/

/-- Fetch oracle for the C1 instances: "bad" gets a 404, anything else a
200 page with no container. -/
def exFetchC1 : String → Response :=
  fun u => if u = "bad" then ⟨404, ⟨none, none⟩⟩ else ⟨200, ⟨none, none⟩⟩

/-- C1 counterexample: in a two-locator batch whose first locator's fetch
returns 404, the whole batch (and process) terminates with exit code 1 —
the failing locator does not produce a degraded record and the other
locator's result is never returned, although scraping it alone would have
succeeded. -/
theorem batch_abort_on_single_fetch_failure :
    process_urls exFetchC1 ["bad", "good"] = Except.error 1 ∧
    scrape_item_details (exFetchC1 "good") = ScrapeOutcome.ok emptyRecord :=
  ⟨rfl, rfl⟩

/-- C1 (amended): a batch containing any locator whose fetch returns a
non-2xx status terminates the whole process with exit code 1; no per-locator
degraded record is produced and no other locator's result is returned. -/
theorem fetch_failure_aborts_batch (fetch : String → Response) (urls : List String)
    (u : String) (hu : u ∈ urls) (hbad : (fetch u).status ≠ 200) :
    process_urls fetch urls = Except.error 1 :=
  process_urls_error_of_mem fetch urls u hu (scrape_exit_of_bad_status _ hbad)

/-- Witness for the amended C1 theorem at a concrete batch. -/
theorem fetch_failure_aborts_batch_witness :
    process_urls exFetchC1 ["bad", "good"] = Except.error 1 :=
  fetch_failure_aborts_batch exFetchC1 ["bad", "good"] "bad" (by decide) (by decide)

/-! ## Claim C2 -/

set_option maxRecDepth 20000 in
/-- C2: the update loop reassigns `update_query`, so with two pairs the
second executed statement is again the first pair's query (the placeholders
are gone after iteration one), the first pair's query differs from the
query the second pair should have received, and the keyed UPDATE semantics
itself is idempotent (re-running the duplicated first query changes
nothing). -/
theorem update_loop_reuses_first_query :
    runUpdates [("NC-0001", "https://img.example/a.jpg"), ("NC-0002", "https://img.example/b.jpg")]
      = [mkUpdateQuery "NC-0001" "https://img.example/a.jpg",
         mkUpdateQuery "NC-0001" "https://img.example/a.jpg"] ∧
    mkUpdateQuery "NC-0001" "https://img.example/a.jpg"
      ≠ mkUpdateQuery "NC-0002" "https://img.example/b.jpg" ∧
    applyUpdate (applyUpdate [("NC-0002", "x-raw-image:old")] "NC-0002" "https://img.example/b.jpg")
        "NC-0002" "https://img.example/b.jpg"
      = applyUpdate [("NC-0002", "x-raw-image:old")] "NC-0002" "https://img.example/b.jpg" :=
  ⟨rfl, by decide, rfl⟩

/-! ## Claim C3 -/

/-- C3 (amended): the loop makes at most two fetch passes — exactly two when
pass 1 returned any sentinel value, in which case the list handed to the
update loop is pass 2's (so the sentinel-then-valid scenario stores the
pass-2 URL), and exactly one otherwise — after which the body sets the flag
and the run completes with that list stored. -/
theorem convergence_two_pass_bound (fp : Nat → List (String × String)) :
    (convergence_passes fp).1 ≤ 2 ∧
    (convergence_passes fp).1 = (if hasSentinel ((fp 1).map Prod.snd) then 2 else 1) ∧
    (convergence_passes fp).2 = (if hasSentinel ((fp 1).map Prod.snd) then fp 2 else fp 1) ∧
    convergence_main (Except.ok fp) = RunResult.success (convergence_passes fp).2 := by
  unfold convergence_main convergence_passes
  split <;> simp_all

/-- Witness for the amended C3 theorem at a concrete pass oracle. -/
def sentinelOnlyPass : Nat → List (String × String) :=
  fun _ => [("NC-0001", "x-raw-image:placeholder")]

theorem convergence_two_pass_bound_witness :
    (convergence_passes sentinelOnlyPass).1 ≤ 2 ∧
    (convergence_passes sentinelOnlyPass).1
      = (if hasSentinel ((sentinelOnlyPass 1).map Prod.snd) then 2 else 1) ∧
    (convergence_passes sentinelOnlyPass).2
      = (if hasSentinel ((sentinelOnlyPass 1).map Prod.snd) then sentinelOnlyPass 2
         else sentinelOnlyPass 1) ∧
    convergence_main (Except.ok sentinelOnlyPass)
      = RunResult.success (convergence_passes sentinelOnlyPass).2 :=
  convergence_two_pass_bound sentinelOnlyPass

/-- C3 counterexample: when both passes return the sentinel value, the run
still completes normally (the flag is set, the loop's terminal state is
reached) with the sentinel value stored — no `PartialResolutionError`
exists and the loop does not keep seeking. -/
theorem convergence_finishes_with_sentinel :
    convergence_main (Except.ok sentinelOnlyPass)
      = RunResult.success [("NC-0001", "x-raw-image:placeholder")] ∧
    pyContains "x-raw-image:placeholder" xRawSentinel = true :=
  ⟨rfl, by decide⟩

/-! ## Claim C4 -/

/-- C4 counterexample: an exception in the convergence loop body — a
run-level, non-record-local failure — reaches `except Exception: ...; exit()`
and the bare `exit()` terminates the process with status 0, not non-zero. -/
theorem run_error_exits_zero :
    convergence_main (Except.error "upstream query failed") = RunResult.exitWith 0 :=
  rfl

/-- Pass oracle and fetch oracle for the C4 witness. -/
def exFpC4 : Nat → List (String × String) := fun _ => []

def exFetchC4 : String → Response :=
  fun u => if u = "bad4" then ⟨500, ⟨none, none⟩⟩ else ⟨200, ⟨none, none⟩⟩

/-- C4 (amended): in `replace_x_image_urls` a run-level error exits with
status 0 (bare `exit()`), and an error-free run completes regardless of
unresolved records; in `scrape_item_details.py` a run-level failure exits
with status 1, but so does any single record's fetch failure — the exit
status does not distinguish record-local from run-level failures the way
the claim states. -/
theorem exit_status_amended (e msg : String) (fp : Nat → List (String × String))
    (fetch : String → Response) (urls : List String) (u : String)
    (hu : u ∈ urls) (hbad : scrape_item_details (fetch u) = ScrapeOutcome.exit 1) :
    convergence_main (Except.error e) = RunResult.exitWith 0 ∧
    convergence_main (Except.ok fp) = RunResult.success (convergence_passes fp).2 ∧
    scrape_main fetch (Except.error msg) = Except.error 1 ∧
    scrape_main fetch (Except.ok urls) = Except.error 1 :=
  ⟨rfl, rfl, rfl, process_urls_error_of_mem fetch urls u hu hbad⟩

/-- Witness for the amended C4 theorem at concrete inputs. -/
theorem exit_status_amended_witness :
    convergence_main (Except.error "sink failed") = RunResult.exitWith 0 ∧
    convergence_main (Except.ok exFpC4) = RunResult.success (convergence_passes exFpC4).2 ∧
    scrape_main exFetchC4 (Except.error "upstream") = Except.error 1 ∧
    scrape_main exFetchC4 (Except.ok ["bad4", "good4"]) = Except.error 1 :=
  exit_status_amended "sink failed" "upstream" exFpC4 exFetchC4 ["bad4", "good4"] "bad4"
    (by decide) (by decide)

/-! ## Claim C5 -/

/-- C5 counterexample: an extracted "NC Code" value of length 1 is not left
unchanged — the slicing transform appends the separator, mapping "N" to
"N-". -/
theorem nc_code_short_input_changed :
    (applyDict emptyRecord [("NC Code", "N")]).nc_code = "N-" ∧
    ("N-" : String) ≠ "N" :=
  ⟨rfl, by decide⟩

/-- C5 (amended): the transform inserts the separator after the second
character ("NC1234" to "NC-1234") and is applied unconditionally whenever
the "NC Code" label is present, but an input of length < 2 is not left
unchanged: it becomes the input with the separator appended. -/
theorem catalog_code_transform_amended (s : String) (r : ItemRecord) (d : Dict)
    (hmem : dictMem d "NC Code" = true) (hlen : s.length < 2) :
    formatNcCode "NC1234" = "NC-1234" ∧
    formatNcCode s = s ++ "-" ∧
    (applyDict r d).nc_code = formatNcCode (dictLookup d "NC Code") := by
  refine ⟨by decide, ?_, ?_⟩
  · obtain ⟨l⟩ := s
    have hl : l.length ≤ 2 := le_of_lt (by simpa [String.length] using hlen)
    apply String.ext
    show (String.mk (l.take 2) ++ "-" ++ String.mk (l.drop 2)).data = (String.mk l ++ "-").data
    rw [List.take_of_length_le hl, List.drop_eq_nil_of_le hl]
    simp [String.data_append]
  · rw [applyDict_nc_code, if_pos hmem]

/-- Witness for the amended C5 theorem at concrete inputs. -/
theorem catalog_code_transform_witness :
    formatNcCode "NC1234" = "NC-1234" ∧
    formatNcCode "N" = "N" ++ "-" ∧
    (applyDict emptyRecord [("NC Code", "NC1234")]).nc_code
      = formatNcCode (dictLookup [("NC Code", "NC1234")] "NC Code") :=
  catalog_code_transform_amended "N" emptyRecord [("NC Code", "NC1234")]
    (by decide) (by decide)

/-! ## Claim C6 -/

/-- An attempt whose response body has no items, as `replace_missing_urls.py`
would see for a query with no search results. -/
def notFoundAttempt : Nat → Except Unit String :=
  fun _ => google_custom_image_search "NC-0001" "Brand 750ml" (Except.ok [])

/-- C6 counterexample: a NotFound response (empty `items`) makes
`google_custom_image_search` raise (the `[0]` index fails and the handler
re-raises) rather than return a sentinel, and under the 30-attempt retry
bound the error still surfaces after consuming every attempt. -/
theorem search_empty_items_raises :
    google_custom_image_search "NC-0001" "Brand 750ml" (Except.ok []) = Except.error () ∧
    run_with_retry notFoundAttempt 30 = Except.error () :=
  ⟨rfl, rfl⟩

/-- C6 (amended): the search treats NotFound exactly like RateLimited and
Unreachable — every failure raises and is retried uniformly, a non-empty
item list returns the first link tagged with the catalog code, and an
always-failing attempt exhausts any retry bound and surfaces the error. -/
theorem search_failure_uniform_amended (nc q link : String) (f : SearchFailure)
    (items : List String) (g : Nat → Except Unit String)
    (hg : ∀ k, g k = Except.error ()) (b : Nat) :
    google_custom_image_search nc q (Except.ok []) = Except.error () ∧
    google_custom_image_search nc q (Except.error f) = Except.error () ∧
    google_custom_image_search nc q (Except.ok (link :: items))
      = Except.ok (nc ++ "~" ++ link) ∧
    run_with_retry g b = Except.error () :=
  ⟨rfl, rfl, rfl, runRetry_error g hg (b - 1) 1⟩

/-- Witness for the amended C6 theorem at concrete inputs. -/
theorem search_failure_uniform_witness :
    google_custom_image_search "NC-0001" "Brand 750ml" (Except.ok []) = Except.error () ∧
    google_custom_image_search "NC-0001" "Brand 750ml"
      (Except.error SearchFailure.rateLimited) = Except.error () ∧
    google_custom_image_search "NC-0001" "Brand 750ml"
      (Except.ok ("https://img.example/a.jpg" :: []))
      = Except.ok ("NC-0001" ++ "~" ++ "https://img.example/a.jpg") ∧
    run_with_retry notFoundAttempt 30 = Except.error () :=
  search_failure_uniform_amended "NC-0001" "Brand 750ml" "https://img.example/a.jpg"
    SearchFailure.rateLimited [] notFoundAttempt (fun _ => rfl) 30

/-! ## Claim C7 -/

/-- The per-locator task run by the batch: scrape the fetched page. -/
def scrapeVia (fetch : String → Response) (u : String) : ScrapeOutcome :=
  scrape_item_details (fetch u)

/-- C7: for any completion schedule that is a permutation of the task
indices, the gathered batch result has the same length as the locator list
and holds, at every position, exactly the scrape result of the locator at
that position. -/
theorem fetch_all_order (fetch : String → Response) (urls : List String)
    (order : List Nat) (hperm : order.Perm (List.range urls.length)) :
    gatherResults (scrapeVia fetch) urls order
      = urls.map (fun u => some (scrapeVia fetch u)) ∧
    (gatherResults (scrapeVia fetch) urls order).length = urls.length := by
  refine ⟨gatherResults_eq _ _ _ hperm, ?_⟩
  rw [gatherResults_eq _ _ _ hperm, List.length_map]

/-- Fetch oracle for the C7 witness. -/
def exFetchC7 : String → Response := fun _ => ⟨200, ⟨none, none⟩⟩

/-- Witness for the C7 theorem: two locators completing in reversed order. -/
theorem fetch_all_order_witness :
    gatherResults (scrapeVia exFetchC7) ["ua", "ub"] [1, 0]
      = [some (scrapeVia exFetchC7 "ua"), some (scrapeVia exFetchC7 "ub")] ∧
    (gatherResults (scrapeVia exFetchC7) ["ua", "ub"] [1, 0]).length = 2 :=
  fetch_all_order exFetchC7 ["ua", "ub"] [1, 0] (by decide)

/-! ## Claim C8 -/

/-- C8: a successfully fetched page with no container block yields the
record with every field equal to the empty string, returned normally (no
exception, no exit). -/
theorem extractor_missing_container (resp : Response) (h200 : resp.status = 200)
    (hc : resp.doc.container = none) :
    scrape_item_details resp = ScrapeOutcome.ok emptyRecord ∧
    emptyRecord.nc_code = "" ∧ emptyRecord.brand_name = "" ∧
    emptyRecord.effective_date = "" ∧ emptyRecord.bottle_size = "" ∧
    emptyRecord.proof = "" ∧ emptyRecord.bottles_per_case = "" ∧
    emptyRecord.upc = "" ∧ emptyRecord.retail_price = "" ∧
    emptyRecord.mxb_price = "" ∧ emptyRecord.case_cost_less_bailment = "" ∧
    emptyRecord.distiller = "" ∧ emptyRecord.product_image_url = "" := by
  refine ⟨?_, rfl, rfl, rfl, rfl, rfl, rfl, rfl, rfl, rfl, rfl, rfl, rfl⟩
  simp [scrape_item_details, h200, hc]

/-- Response for the C8 witness. -/
def exRespC8 : Response := ⟨200, ⟨none, none⟩⟩

/-- Witness for the C8 theorem at a concrete containerless page. -/
theorem extractor_missing_container_witness :
    scrape_item_details exRespC8 = ScrapeOutcome.ok emptyRecord ∧
    emptyRecord.nc_code = "" ∧ emptyRecord.brand_name = "" ∧
    emptyRecord.effective_date = "" ∧ emptyRecord.bottle_size = "" ∧
    emptyRecord.proof = "" ∧ emptyRecord.bottles_per_case = "" ∧
    emptyRecord.upc = "" ∧ emptyRecord.retail_price = "" ∧
    emptyRecord.mxb_price = "" ∧ emptyRecord.case_cost_less_bailment = "" ∧
    emptyRecord.distiller = "" ∧ emptyRecord.product_image_url = "" :=
  extractor_missing_container exRespC8 rfl rfl

/-! ## Claim C9 -/

/-- C9: the retry policy is monotone — whenever two attempt numbers both
get a retry decision, the later attempt's backoff delay is at least the
earlier one's — and any attempt number at or past the bound is decided as
give-up. -/
theorem retry_policy_monotone (bound multiplier mn mx m n d1 d2 k : Nat)
    (hmn : m ≤ n)
    (h1 : decide_retry bound multiplier mn mx m = some d1)
    (h2 : decide_retry bound multiplier mn mx n = some d2)
    (hk : bound ≤ k) :
    d1 ≤ d2 ∧ decide_retry bound multiplier mn mx k = none := by
  constructor
  · unfold decide_retry at h1 h2
    split at h1
    · cases h1
    · split at h2
      · cases h2
      · injection h1 with h1'
        injection h2 with h2'
        rw [← h1', ← h2']
        unfold wait_exponential
        exact max_le_max (le_refl mn)
          (min_le_min (Nat.mul_le_mul (le_refl multiplier)
            (Nat.pow_le_pow_right (by omega) hmn)) (le_refl mx))
  · unfold decide_retry
    rw [if_pos hk]

/-- Witness for the C9 theorem on the item-detail policy configuration
(bound 3, multiplier 1, window [4, 10]). -/
theorem retry_policy_monotone_witness :
    (4 : Nat) ≤ 4 ∧ decide_retry 3 1 4 10 5 = none :=
  retry_policy_monotone 3 1 4 10 1 2 4 4 5 (by decide) (by decide) (by decide) (by decide)

/-! ## Claim C10 -/

/-- C10: a 200 page whose container is present but whose first heading
child's stripped text does not contain the delimiter " Effective Date: "
does not produce a degraded record: the index `[1]` into the split raises,
the broad handler fires, and the process exits with status 1. -/
theorem heading_without_delimiter_exits (resp : Response) (pre : List Elem)
    (e : Elem) (rest : List Elem) (h200 : resp.status = 200)
    (hc : resp.doc.container = some (pre ++ e :: rest))
    (hpre : ∀ x ∈ pre, x.hasHeadingH3 = false)
    (hhead : e.hasHeadingH3 = true)
    (hnodelim : pyContains (pyStrip e.text) " Effective Date: " = false) :
    scrape_item_details resp = ScrapeOutcome.exit 1 := by
  have hfold := foldlM_error_of_bad e rest hhead hnodelim pre hpre (emptyRecord, ([] : Dict))
  simp [scrape_item_details, h200, hc, hfold]

/-- Heading child and page for the C10 witness: the heading lacks the
delimiter. -/
def exElemC10 : Elem := ⟨true, [], "Brand Without Date"⟩

def exRespC10 : Response := ⟨200, ⟨some [exElemC10], none⟩⟩

/-- Witness for the C10 theorem at a concrete page. -/
theorem heading_without_delimiter_witness :
    scrape_item_details exRespC10 = ScrapeOutcome.exit 1 :=
  heading_without_delimiter_exits exRespC10 [] exElemC10 [] rfl rfl
    (by intro x hx; cases hx) rfl (by decide)
